import Mathlib

/-!
Shallow embedding of `pyserini/server/search_controller.py` (class
`SearchController`), and proofs of the specification claims about it.

Modelling conventions:
* Python `dict[str, IndexConfig]` (the field `self.indexes`) is an
  association list with in-place overwrite (`setIndex`), which preserves
  the key's position exactly as a Python dict assignment does.
* The external retrieval backends (`LuceneSearcher`,
  `LuceneHnswDenseSearcher`) are opaque `Searcher` values supplied by an
  `Env`; their `search`/`doc` primitives are arbitrary functions.
* Python exceptions become the `Err` inductive, and each stateful method
  returns `Except Err α × ControllerState` so that the registry contents
  after a failed call remain observable.  `Err.unsupportedIndex` is the
  `ValueError` raised in `add_index`, `Err.unknownIndex` is the `KeyError`
  raised by `self.indexes[name]` on a missing key, `Err.documentNotFound`
  is the `ValueError` raised in `get_document`, and `Err.payloadError` is
  the `KeyError`/decode failure on a raw document payload that lacks a
  `contents` field.
* Scores are `Int` (the claims do not depend on floating point).
* Raw JSON payloads are association lists `List (String × String)`.
-/

namespace PyseriniServer

/-- Raw stored document payload: the JSON object held in a hit's `raw`
field, modelled as an association list of string fields. -/
abbrev RawPayload := List (String × String)

/-- One backend hit: document id, score, and the stored raw payload
(`hit.lucene_document.get("raw")` after JSON decoding). -/
structure Hit where
  docid : String
  score : Int
  raw : RawPayload
deriving Repr, DecidableEq

/-- Opaque retrieval backend instance (a loaded `LuceneSearcher` or
`LuceneHnswDenseSearcher`): its `search(query, k)` and `doc(docid)`
primitives. -/
structure Searcher where
  search : String → Nat → List Hit
  doc : String → Option RawPayload

/-- Modelled from the spec: `IndexConfig` lives in
`pyserini.server.models`, which is not under `src/`; the spec (§3) gives
its shape: a per-index handle with a `name`, an optional `path`, the
optional tunables `ef_search` / `encoder` / `query_generator`, and a
`searcher` (backend reference) that is absent until provisioning
succeeds.  All optional fields default to `none`. -/
structure IndexConfig where
  name : String
  path : Option String := none
  ef_search : Option Nat := none
  encoder : Option String := none
  query_generator : Option String := none
  searcher : Option Searcher := none

/-- External collaborators of the controller: the two prebuilt-index
catalogs (`TF_INDEX_INFO` as a partial map to the compressed size in
bytes, `LUCENE_HNSW_INDEX_INFO` as a membership predicate), the
`check_downloaded` utility, and the two backend loaders
(`LuceneSearcher.from_prebuilt_index`,
`LuceneHnswDenseSearcher.from_prebuilt_index`). -/
structure Env where
  tfInfo : String → Option Nat
  hnswInfo : String → Bool
  checkDownloaded : String → Bool
  loadLexical : String → Searcher
  loadHnsw : String → Option Nat → Option String → Searcher

/-- Python exceptions raised by the controller. -/
inductive Err where
  | unsupportedIndex (name : String)
  | unknownIndex (name : String)
  | documentNotFound (docid : String) (index : String)
  | payloadError
  | attributeError
deriving Repr, DecidableEq

/-- The registry `self.indexes : dict[str, IndexConfig]`. -/
abbrev Registry := List (String × IndexConfig)

/-- Controller state: the only mutable state is the registry. -/
structure ControllerState where
  indexes : Registry

/-- Python dict assignment `d[name] = cfg`: overwrite in place if the key
exists (keeping its position), append otherwise. -/
def setIndex : Registry → String → IndexConfig → Registry
  | [], name, cfg => [(name, cfg)]
  | (k, v) :: rest, name, cfg =>
    if k = name then (name, cfg) :: rest else (k, v) :: setIndex rest name cfg

/-- The module constant `SHARDS`: the ten
`msmarco-v2.1-doc-segmented-shard0{i}.arctic-embed-l.hnsw-int8` names. -/
def SHARDS : List String :=
  (List.range 10).map fun i =>
    "msmarco-v2.1-doc-segmented-shard0" ++ toString i ++ ".arctic-embed-l.hnsw-int8"

/-- Method `add_index`: dispatch on catalog membership (`SHARDS` first,
then `TF_INDEX_INFO`), load the backend, store the config under its name,
and return it; unknown names raise `ValueError`
(`Err.unsupportedIndex`) before any registry mutation. -/
def add_index (env : Env) (st : ControllerState) (config : IndexConfig) :
    Except Err IndexConfig × ControllerState :=
  if config.name ∈ SHARDS then
    let cfg := { config with
      searcher := some (env.loadHnsw config.name config.ef_search config.encoder) }
    (.ok cfg, ⟨setIndex st.indexes cfg.name cfg⟩)
  else if (env.tfInfo config.name).isSome then
    let cfg := { config with searcher := some (env.loadLexical config.name) }
    (.ok cfg, ⟨setIndex st.indexes cfg.name cfg⟩)
  else
    (.error (.unsupportedIndex config.name), st)

/-- One normalized candidate of a non-sharded search response:
`{docid, score, doc: {contents}}`. -/
structure Candidate where
  docid : String
  score : Int
  contents : String
deriving Repr, DecidableEq

/-- A non-sharded search response:
`{"query": {"qid": ..., "text": ...}, "candidates": [...]}`. -/
structure QueryResponse where
  qid : String
  queryText : String
  candidates : List Candidate
deriving Repr, DecidableEq

/-- The candidate-building loop of `search`: for each hit read
`json.loads(hit.lucene_document.get("raw"))["contents"]`; a payload with
no `contents` field raises (`Err.payloadError`) and aborts the loop. -/
def buildCandidates : List Hit → Except Err (List Candidate)
  | [] => .ok []
  | h :: hs =>
    match h.raw.lookup "contents" with
    | none => .error .payloadError
    | some c => (buildCandidates hs).map fun cs => ⟨h.docid, h.score, c⟩ :: cs

/-- Assembling the `results` dict of `search` from the backend hits. -/
def mkResults (qid query : String) (hits : List Hit) : Except Err QueryResponse :=
  (buildCandidates hits).map fun cs => ⟨qid, query, cs⟩

/-- Method `search`: look the name up in the registry; if there is no
config or its searcher is not loaded, lazily `add_index` a fresh config
(carrying `path = index_name` and the caller's tunables); then run the
searcher and normalize the hits.  The `Err.attributeError` branch is
unreachable (`add_index` always sets a searcher on success). -/
def search (env : Env) (st : ControllerState) (query index_name : String)
    (k : Nat) (qid : String) (ef_search : Option Nat)
    (encoder query_generator : Option String) :
    Except Err QueryResponse × ControllerState :=
  match st.indexes.lookup index_name with
  | some cfg =>
    match cfg.searcher with
    | some s => (mkResults qid query (s.search query k), st)
    | none =>
      match add_index env st ⟨index_name, some index_name, ef_search, encoder,
          query_generator, none⟩ with
      | (.error e, st') => (.error e, st')
      | (.ok cfg', st') =>
        match cfg'.searcher with
        | some s => (mkResults qid query (s.search query k), st')
        | none => (.error .attributeError, st')
  | none =>
    match add_index env st ⟨index_name, some index_name, ef_search, encoder,
        query_generator, none⟩ with
    | (.error e, st') => (.error e, st')
    | (.ok cfg', st') =>
      match cfg'.searcher with
      | some s => (mkResults qid query (s.search query k), st')
      | none => (.error .attributeError, st')

/-- One `{docid, score}` entry of a sharded search result. -/
structure ScoredDoc where
  docid : String
  score : Int
deriving Repr, DecidableEq

/-- Projection applied by `_search_single_shard` to each hit. -/
def hitToScored (h : Hit) : ScoredDoc := ⟨h.docid, h.score⟩

/-- Abstraction of the per-shard work of `_search_single_shard`: given the
shard name, query, `k`, `ef_search` and `encoder`, the (lazily
provisioned) shard searcher's hit list.  The thread pool and registry
interaction inside the task are collapsed into this single function; the
claims about `sharded_search` quantify over it. -/
abbrev ShardBackend := String → String → Nat → Nat → String → List Hit

/-- Method `_search_single_shard`: run the shard backend and project each
hit to `{docid, score}`. -/
def searchSingleShard (backend : ShardBackend) (shard query : String)
    (k ef_search : Nat) (encoder : String) : List ScoredDoc :=
  (backend shard query k ef_search encoder).map hitToScored

/-- One task submission of `sharded_search`'s fan-out loop:
`executor.submit(self._search_single_shard, shard_name, query, k,
ef_search, encoder)`. -/
structure ShardRequest where
  shard : String
  query : String
  k : Nat
  ef_search : Nat
  encoder : String
deriving Repr, DecidableEq

/-- The fan-out loop of `sharded_search`: one request per name in
`SHARDS`, each carrying the caller's `query`, `k`, `ef_search`,
`encoder` unchanged. -/
def shardRequests (query : String) (k ef_search : Nat) (encoder : String) :
    List ShardRequest :=
  SHARDS.map fun s => ⟨s, query, k, ef_search, encoder⟩

/-- Running one submitted shard task. -/
def runShardRequest (backend : ShardBackend) (r : ShardRequest) : List ScoredDoc :=
  searchSingleShard backend r.shard r.query r.k r.ef_search r.encoder

/-- The candidate pool of `sharded_search`: `all_results`, the
concatenation of every completed shard task's list.  (`as_completed`
yields the tasks in a nondeterministic order; the pool is modelled in
shard order — all the claims proved below are insensitive to the
concatenation order.) -/
def shardPool (backend : ShardBackend) (query : String) (k ef_search : Nat)
    (encoder : String) : List ScoredDoc :=
  ((shardRequests query k ef_search encoder).map (runShardRequest backend)).flatten

/-- Comparison used by `all_results.sort(key=lambda x: x["score"],
reverse=True)`: descending by score (a stable merge sort, like CPython's). -/
def scoreLe (a b : ScoredDoc) : Bool := b.score ≤ a.score

/-- Method `sharded_search`: fan out, pool the shard results, sort the
pool by score descending, return the first `k`. -/
def sharded_search (backend : ShardBackend) (query : String) (k ef_search : Nat)
    (encoder : String) : List ScoredDoc :=
  ((shardPool backend query k ef_search encoder).mergeSort scoreLe).take k

/-- Per-shard outcome in the failure-aware model of `sharded_search`: a
shard task either returns its hit list or raises. -/
abbrev ShardBackendE := String → String → Nat → Nat → String → Except String (List Hit)

/-- The collection loop of `sharded_search` over fallible shard tasks:
`future.result()` re-raises a task's exception, so the first failing task
aborts the loop and no pool is produced. -/
def runShardsE (backend : ShardBackendE) (shards : List String) (query : String)
    (k ef_search : Nat) (encoder : String) : Except String (List ScoredDoc) :=
  match shards with
  | [] => .ok []
  | s :: rest =>
    match backend s query k ef_search encoder with
    | .error e => .error e
    | .ok hits =>
      match runShardsE backend rest query k ef_search encoder with
      | .error e => .error e
      | .ok acc => .ok (hits.map hitToScored ++ acc)

/-- Method `sharded_search` over fallible shard tasks: collect all shard
results (aborting on the first failure), then sort and truncate. -/
def sharded_searchE (backend : ShardBackendE) (query : String) (k ef_search : Nat)
    (encoder : String) : Except String (List ScoredDoc) :=
  match runShardsE backend SHARDS query k ef_search encoder with
  | .error e => .error e
  | .ok pool => .ok ((pool.mergeSort scoreLe).take k)

/-- Result shape of `get_document`. -/
structure DocResult where
  docid : String
  text : String
deriving Repr, DecidableEq

/-- Method `get_document`: `self.indexes[index_name]` (KeyError on a
missing name), lazy lexical provisioning when the searcher is absent,
then `searcher.doc(docid)`; `None` raises `ValueError`
(`Err.documentNotFound`), otherwise the payload's `contents` field is
returned as `text` (a payload without `contents` raises
`Err.payloadError`). -/
def get_document (env : Env) (st : ControllerState) (docid index_name : String) :
    Except Err DocResult × ControllerState :=
  match st.indexes.lookup index_name with
  | none => (.error (.unknownIndex index_name), st)
  | some cfg =>
    let srchSt : Searcher × ControllerState :=
      match cfg.searcher with
      | some s => (s, st)
      | none =>
        let s := env.loadLexical cfg.name
        (s, ⟨setIndex st.indexes index_name { cfg with searcher := some s }⟩)
    match srchSt.1.doc docid with
    | none => (.error (.documentNotFound docid index_name), srchSt.2)
    | some raw =>
      match raw.lookup "contents" with
      | none => (.error .payloadError, srchSt.2)
      | some c => (.ok ⟨docid, c⟩, srchSt.2)

/-- The `size compressed (bytes)` value of a status response: the catalog
number or the literal string `"Not available"`. -/
inductive SizeInfo where
  | bytes (n : Nat)
  | notAvailable
deriving Repr, DecidableEq

/-- Result shape of `get_status`. -/
structure Status where
  downloaded : Bool
  sizeCompressedBytes : SizeInfo
deriving Repr, DecidableEq

/-- Method `get_status`: `check_downloaded` plus the compressed size from
`TF_INDEX_INFO` when the name has an entry there, else `"Not available"`;
the registry is not touched. -/
def get_status (env : Env) (st : ControllerState) (index_name : String) :
    Except Err Status × ControllerState :=
  (.ok ⟨env.checkDownloaded index_name,
    match env.tfInfo index_name with
    | some n => .bytes n
    | none => .notAvailable⟩, st)

/-- The three conditional field assignments of `update_settings` (the
source receives `ef_search` as a string and applies `int(...)`; the
already-converted number is modelled). -/
def applySettings (cfg : IndexConfig) (ef_search : Option Nat)
    (encoder query_generator : Option String) : IndexConfig :=
  let cfg1 := match ef_search with
    | some v => { cfg with ef_search := some v }
    | none => cfg
  let cfg2 := match encoder with
    | some v => { cfg1 with encoder := some v }
    | none => cfg1
  match query_generator with
  | some v => { cfg2 with query_generator := some v }
  | none => cfg2

/-- Method `update_settings`: `self.indexes[index_name]` (KeyError on a
missing name — the in-source `if not index_config` ValueError check is
unreachable after it), then overwrite exactly the provided fields on the
stored handle. -/
def update_settings (st : ControllerState) (index_name : String)
    (ef_search : Option Nat) (encoder query_generator : Option String) :
    Except Err Unit × ControllerState :=
  match st.indexes.lookup index_name with
  | none => (.error (.unknownIndex index_name), st)
  | some cfg =>
    (.ok (), ⟨setIndex st.indexes index_name
      (applySettings cfg ef_search encoder query_generator)⟩)

/-- A value of the settings mapping returned by `get_settings`. -/
inductive SettingVal where
  | nat (n : Nat)
  | str (s : String)
deriving Repr, DecidableEq

/-- The mapping-building block of `get_settings`: one entry per settings
field that is currently set on the handle, nothing for absent fields. -/
def settingsList (cfg : IndexConfig) : List (String × SettingVal) :=
  let s0 : List (String × SettingVal) := []
  let s1 := match cfg.ef_search with
    | some v => s0 ++ [("efSearch", .nat v)]
    | none => s0
  let s2 := match cfg.encoder with
    | some v => s1 ++ [("encoder", .str v)]
    | none => s1
  match cfg.query_generator with
  | some v => s2 ++ [("queryGenerator", .str v)]
  | none => s2

/-- Method `get_settings`: `self.indexes[index_name]` (KeyError on a
missing name — the in-source `if not index_config` ValueError check is
unreachable after it), then the mapping built by `settingsList`. -/
def get_settings (st : ControllerState) (index_name : String) :
    Except Err (List (String × SettingVal)) × ControllerState :=
  match st.indexes.lookup index_name with
  | none => (.error (.unknownIndex index_name), st)
  | some cfg => (.ok (settingsList cfg), st)

/-! Helper lemmas about the registry and the sort comparison. -/

theorem lookup_setIndex_self (l : Registry) (n : String) (c : IndexConfig) :
    (setIndex l n c).lookup n = some c := by
  induction l with
  | nil => simp [setIndex, List.lookup]
  | cons p rest ih =>
    obtain ⟨k, v⟩ := p
    by_cases h : k = n
    · simp [setIndex, h, List.lookup]
    · simp only [setIndex, if_neg h, List.lookup]
      have : (n == k) = false := by
        simp [beq_eq_false_iff_ne]
        exact fun hnk => h hnk.symm
      simp [this, ih]

theorem lookup_setIndex_ne (l : Registry) (n : String) (c : IndexConfig)
    (m : String) (h : m ≠ n) :
    (setIndex l n c).lookup m = l.lookup m := by
  induction l with
  | nil => simp [setIndex, List.lookup, beq_eq_false_iff_ne.mpr h]
  | cons p rest ih =>
    obtain ⟨k, v⟩ := p
    by_cases hk : k = n
    · subst hk
      simp [setIndex, List.lookup, beq_eq_false_iff_ne.mpr h]
    · simp only [setIndex, if_neg hk, List.lookup]
      cases hmk : (m == k) <;> simp [ih]

theorem scoreLe_trans (a b c : ScoredDoc) :
    scoreLe a b → scoreLe b c → scoreLe a c := by
  simp only [scoreLe, decide_eq_true_eq]
  omega

theorem scoreLe_total (a b : ScoredDoc) : scoreLe a b || scoreLe b a := by
  simp only [scoreLe, Bool.or_eq_true, decide_eq_true_eq]
  omega

/-! The claims. -/

/-- Correctness property of `sharded_search` at one input: the returned
list has length `min k |pool|`, is sorted descending by score, is (as a
multiset) contained in the candidate pool, and every entry it dropped
from the sorted pool scores no higher than every entry it kept. -/
def ShardedTopK (backend : ShardBackend) (query : String) (k ef_search : Nat)
    (encoder : String) : Prop :=
  sharded_search backend query k ef_search encoder =
      ((shardPool backend query k ef_search encoder).mergeSort scoreLe).take k
  ∧ (sharded_search backend query k ef_search encoder).length =
      min k (shardPool backend query k ef_search encoder).length
  ∧ (sharded_search backend query k ef_search encoder).Pairwise
      (fun a b => b.score ≤ a.score)
  ∧ (sharded_search backend query k ef_search encoder).Subperm
      (shardPool backend query k ef_search encoder)
  ∧ ∀ x ∈ sharded_search backend query k ef_search encoder,
      ∀ y ∈ ((shardPool backend query k ef_search encoder).mergeSort scoreLe).drop k,
        y.score ≤ x.score

/-- Claim C1: for every query, `k > 0`, and shard backend, `sharded_search`
returns the `k` globally highest-scored entries of the union of the
shards' result lists, sorted by score descending, with length
`min k |pool|` (so at most `k`, and the whole pool when it is smaller). -/
theorem sharded_search_top_k (backend : ShardBackend) (query : String)
    (k ef_search : Nat) (encoder : String) (hk : 0 < k) :
    ShardedTopK backend query k ef_search encoder := by
  have hsorted := @List.sorted_mergeSort ScoredDoc scoreLe
    scoreLe_trans scoreLe_total
    (shardPool backend query k ef_search encoder)
  have hsorted' : ((shardPool backend query k ef_search encoder).mergeSort
      scoreLe).Pairwise (fun a b => b.score ≤ a.score) := by
    refine hsorted.imp ?_
    intro a b hab
    simpa [scoreLe] using hab
  refine ⟨rfl, ?_, ?_, ?_, ?_⟩
  · simp [sharded_search]
  · exact hsorted'.sublist (List.take_sublist _ _)
  · exact ((List.take_sublist _ _).subperm).trans
      (List.mergeSort_perm (shardPool backend query k ef_search encoder)
        scoreLe).subperm
  · intro x hx y hy
    have := (List.pairwise_append.mp
      (by
        rw [List.take_append_drop k ((shardPool backend query k ef_search
          encoder).mergeSort scoreLe)]
        exact hsorted')).2.2
    exact this x hx y hy

/-- Demonstration shard backend for the witness: deterministic scored
lists on three shard names, empty elsewhere. -/
def demoBackend : ShardBackend := fun shard _query _k _ef _enc =>
  if shard = "msmarco-v2.1-doc-segmented-shard00.arctic-embed-l.hnsw-int8" then
    [⟨"a1", 9, []⟩, ⟨"a2", 7, []⟩, ⟨"a3", 5, []⟩]
  else if shard = "msmarco-v2.1-doc-segmented-shard01.arctic-embed-l.hnsw-int8" then
    [⟨"b1", 8, []⟩, ⟨"b2", 6, []⟩, ⟨"b3", 4, []⟩]
  else if shard = "msmarco-v2.1-doc-segmented-shard02.arctic-embed-l.hnsw-int8" then
    [⟨"c1", 3, []⟩, ⟨"c2", 2, []⟩, ⟨"c3", 1, []⟩]
  else []

/-- Witness for C1 at a concrete input. -/
theorem sharded_search_top_k_witness :
    0 < 5 ∧ ShardedTopK demoBackend "q" 5 16 "arctic" :=
  ⟨by decide, sharded_search_top_k demoBackend "q" 5 16 "arctic" (by decide)⟩

/-- Claim C2: the fan-out loop submits exactly one task per shard name,
and every submitted task carries the caller's `k` (and query and
tunables) unchanged, so each shard contributes its own top-`k` list to
the merge pool. -/
theorem shard_tasks_use_caller_k (backend : ShardBackend) (query : String)
    (k ef_search : Nat) (encoder : String) :
    (shardRequests query k ef_search encoder).length = SHARDS.length
    ∧ (shardRequests query k ef_search encoder).map ShardRequest.shard = SHARDS
    ∧ (∀ r ∈ shardRequests query k ef_search encoder,
        r.k = k ∧ r.query = query ∧ r.ef_search = ef_search ∧ r.encoder = encoder)
    ∧ shardPool backend query k ef_search encoder =
        ((shardRequests query k ef_search encoder).map
          (fun r => (backend r.shard r.query r.k r.ef_search r.encoder).map
            hitToScored)).flatten := by
  refine ⟨by simp [shardRequests],
    by simp [shardRequests, Function.comp_def], ?_, rfl⟩
  intro r hr
  simp only [shardRequests, List.mem_map] at hr
  obtain ⟨s, _, rfl⟩ := hr
  exact ⟨rfl, rfl, rfl, rfl⟩

/-- Witness for C2 at a concrete input. -/
theorem shard_tasks_use_caller_k_witness :
    (shardRequests "q" 5 16 "arctic").length = SHARDS.length
    ∧ ({ shard := "msmarco-v2.1-doc-segmented-shard03.arctic-embed-l.hnsw-int8",
          query := "q", k := 5, ef_search := 16, encoder := "arctic" } :
          ShardRequest).k = 5 :=
  ⟨(shard_tasks_use_caller_k demoBackend "q" 5 16 "arctic").1,
    ((shard_tasks_use_caller_k demoBackend "q" 5 16 "arctic").2.2.1
      ⟨"msmarco-v2.1-doc-segmented-shard03.arctic-embed-l.hnsw-int8",
        "q", 5, 16, "arctic"⟩ (by decide)).1⟩

/-- Auxiliary induction for C9: if some shard in the list fails with `e`
and every other shard succeeds, the collection loop yields exactly that
error. -/
theorem runShardsE_error (backend : ShardBackendE) (query : String)
    (k ef_search : Nat) (encoder : String) (e : String) (s : String) :
    ∀ shards : List String, s ∈ shards →
      backend s query k ef_search encoder = .error e →
      (∀ s' ∈ shards, s' ≠ s → ∃ hits, backend s' query k ef_search encoder = .ok hits) →
      runShardsE backend shards query k ef_search encoder = .error e := by
  intro shards
  induction shards with
  | nil => intro hmem; cases hmem
  | cons a rest ih =>
    intro hmem herr hok
    by_cases ha : a = s
    · subst ha
      simp [runShardsE, herr]
    · obtain ⟨hits, hh⟩ := hok a (List.mem_cons_self a rest) ha
      have hsrest : s ∈ rest := by
        rcases List.mem_cons.mp hmem with h | h
        · exact absurd h.symm ha
        · exact h
      have hrest := ih hsrest herr fun s' hs' => hok s' (List.mem_cons_of_mem a hs')
      simp [runShardsE, hh, hrest]

/-- Claim C9: if one shard task raises and every other shard task
succeeds, the whole `sharded_search` call fails with that shard's error
and never returns a (partial) result list. -/
theorem sharded_search_shard_failure (backend : ShardBackendE) (query : String)
    (k ef_search : Nat) (encoder : String) (s e : String)
    (hmem : s ∈ SHARDS)
    (herr : backend s query k ef_search encoder = .error e)
    (hok : ∀ s' ∈ SHARDS, s' ≠ s →
      ∃ hits, backend s' query k ef_search encoder = .ok hits) :
    sharded_searchE backend query k ef_search encoder = .error e
    ∧ ∀ l, sharded_searchE backend query k ef_search encoder ≠ .ok l := by
  have h := runShardsE_error backend query k ef_search encoder e s SHARDS hmem herr hok
  refine ⟨by simp [sharded_searchE, h], ?_⟩
  intro l hl
  simp [sharded_searchE, h] at hl

/-- Demonstration fallible shard backend: shard 03 raises, every other
shard returns an empty hit list. -/
def demoFailBackend : ShardBackendE := fun shard _query _k _ef _enc =>
  if shard = "msmarco-v2.1-doc-segmented-shard03.arctic-embed-l.hnsw-int8" then
    .error "boom"
  else
    .ok []

/-- Witness for C9 at a concrete input. -/
theorem sharded_search_shard_failure_witness :
    sharded_searchE demoFailBackend "q" 5 16 "arctic" = .error "boom" :=
  (sharded_search_shard_failure demoFailBackend "q" 5 16 "arctic"
    "msmarco-v2.1-doc-segmented-shard03.arctic-embed-l.hnsw-int8" "boom"
    (by decide)
    (by simp [demoFailBackend])
    (fun s' _ hne => ⟨[], by simp [demoFailBackend, hne]⟩)).1

/-- Claim C3: when the registry already holds a handle with a loaded
searcher for the name, `search` uses that handle — the response is built
from the cached searcher's hits — and the whole registry (in particular
the entry for that name) is returned unchanged; no provisioning path is
taken. -/
theorem search_uses_cached_handle (env : Env) (st : ControllerState)
    (query index_name : String) (k : Nat) (qid : String) (ef_search : Option Nat)
    (encoder query_generator : Option String) (cfg : IndexConfig) (s : Searcher)
    (hc : st.indexes.lookup index_name = some cfg)
    (hs : cfg.searcher = some s) :
    search env st query index_name k qid ef_search encoder query_generator =
      (mkResults qid query (s.search query k), st) := by
  simp [search, hc, hs]

/-- Claim C4: `add_index` on a name in neither catalog returns the
`UnsupportedIndexError` unchanged and leaves the registry exactly as it
was. -/
theorem add_index_unsupported (env : Env) (st : ControllerState)
    (config : IndexConfig)
    (hshard : config.name ∉ SHARDS)
    (htf : env.tfInfo config.name = none) :
    add_index env st config = (.error (.unsupportedIndex config.name), st) := by
  simp [add_index, hshard, htf]

/-- Projection lemmas for `applySettings`: provided fields overwrite,
absent fields and all non-settings fields are untouched. -/
theorem applySettings_ef_search (cfg : IndexConfig) (ef : Option Nat)
    (enc qg : Option String) :
    (applySettings cfg ef enc qg).ef_search =
      (match ef with | some v => some v | none => cfg.ef_search) := by
  cases ef <;> cases enc <;> cases qg <;> rfl

theorem applySettings_encoder (cfg : IndexConfig) (ef : Option Nat)
    (enc qg : Option String) :
    (applySettings cfg ef enc qg).encoder =
      (match enc with | some v => some v | none => cfg.encoder) := by
  cases ef <;> cases enc <;> cases qg <;> rfl

theorem applySettings_qg (cfg : IndexConfig) (ef : Option Nat)
    (enc qg : Option String) :
    (applySettings cfg ef enc qg).query_generator =
      (match qg with | some v => some v | none => cfg.query_generator) := by
  cases ef <;> cases enc <;> cases qg <;> rfl

theorem applySettings_name (cfg : IndexConfig) (ef : Option Nat)
    (enc qg : Option String) :
    (applySettings cfg ef enc qg).name = cfg.name := by
  cases ef <;> cases enc <;> cases qg <;> rfl

theorem applySettings_path (cfg : IndexConfig) (ef : Option Nat)
    (enc qg : Option String) :
    (applySettings cfg ef enc qg).path = cfg.path := by
  cases ef <;> cases enc <;> cases qg <;> rfl

theorem applySettings_searcher (cfg : IndexConfig) (ef : Option Nat)
    (enc qg : Option String) :
    (applySettings cfg ef enc qg).searcher = cfg.searcher := by
  cases ef <;> cases enc <;> cases qg <;> rfl

/-- Claim C5: `update_settings` on an existing handle succeeds and stores
an updated handle in which each provided field is overwritten, each
absent field keeps its previous value, the non-settings fields (name,
path, searcher) are untouched, the updated handle is what a subsequent
lookup of the name observes, and every other registry entry is
unchanged. -/
theorem update_settings_partial_update (st : ControllerState)
    (index_name : String) (ef_search : Option Nat)
    (encoder query_generator : Option String) (cfg : IndexConfig)
    (hc : st.indexes.lookup index_name = some cfg) :
    ∃ cfg',
      update_settings st index_name ef_search encoder query_generator =
        (.ok (), ⟨setIndex st.indexes index_name cfg'⟩)
      ∧ (setIndex st.indexes index_name cfg').lookup index_name = some cfg'
      ∧ cfg'.ef_search =
          (match ef_search with | some v => some v | none => cfg.ef_search)
      ∧ cfg'.encoder =
          (match encoder with | some v => some v | none => cfg.encoder)
      ∧ cfg'.query_generator =
          (match query_generator with | some v => some v | none => cfg.query_generator)
      ∧ cfg'.name = cfg.name ∧ cfg'.path = cfg.path ∧ cfg'.searcher = cfg.searcher
      ∧ ∀ other, other ≠ index_name →
          (setIndex st.indexes index_name cfg').lookup other =
            st.indexes.lookup other := by
  refine ⟨applySettings cfg ef_search encoder query_generator,
    by simp [update_settings, hc],
    lookup_setIndex_self _ _ _,
    applySettings_ef_search cfg ef_search encoder query_generator,
    applySettings_encoder cfg ef_search encoder query_generator,
    applySettings_qg cfg ef_search encoder query_generator,
    applySettings_name cfg ef_search encoder query_generator,
    applySettings_path cfg ef_search encoder query_generator,
    applySettings_searcher cfg ef_search encoder query_generator,
    fun other h => lookup_setIndex_ne _ _ _ _ h⟩

/-- Claim C6: `get_settings` on an existing handle returns (leaving the
state untouched) a mapping that has an entry for a settings field exactly
when that field is set on the handle, with the set value; no other keys
occur; and when no field is set the mapping is empty. -/
theorem get_settings_only_set_fields (st : ControllerState)
    (index_name : String) (cfg : IndexConfig)
    (hc : st.indexes.lookup index_name = some cfg) :
    ∃ m, get_settings st index_name = (.ok m, st)
      ∧ ((∃ v, ("efSearch", SettingVal.nat v) ∈ m) ↔ cfg.ef_search.isSome)
      ∧ (∀ v, ("efSearch", SettingVal.nat v) ∈ m → cfg.ef_search = some v)
      ∧ ((∃ v, ("encoder", SettingVal.str v) ∈ m) ↔ cfg.encoder.isSome)
      ∧ (∀ v, ("encoder", SettingVal.str v) ∈ m → cfg.encoder = some v)
      ∧ ((∃ v, ("queryGenerator", SettingVal.str v) ∈ m) ↔
          cfg.query_generator.isSome)
      ∧ (∀ v, ("queryGenerator", SettingVal.str v) ∈ m →
          cfg.query_generator = some v)
      ∧ (∀ kv ∈ m, kv.1 = "efSearch" ∨ kv.1 = "encoder" ∨ kv.1 = "queryGenerator")
      ∧ (cfg.ef_search = none → cfg.encoder = none → cfg.query_generator = none →
          m = []) := by
  refine ⟨settingsList cfg, by simp [get_settings, hc], ?_, ?_, ?_, ?_, ?_, ?_, ?_, ?_⟩ <;>
    cases hef : cfg.ef_search <;> cases henc : cfg.encoder <;>
      cases hqg : cfg.query_generator <;>
      simp [settingsList, hef, henc, hqg]

/-- Claim C7: a settings operation on a name with no handle fails with
the unknown-index error (`self.indexes[name]` raises `KeyError`) and
returns the state — hence the registry and every existing handle —
unchanged. -/
theorem settings_ops_unknown_index (st : ControllerState) (index_name : String)
    (ef_search : Option Nat) (encoder query_generator : Option String)
    (hc : st.indexes.lookup index_name = none) :
    update_settings st index_name ef_search encoder query_generator =
      (.error (.unknownIndex index_name), st)
    ∧ get_settings st index_name = (.error (.unknownIndex index_name), st) :=
  ⟨by simp [update_settings, hc], by simp [get_settings, hc]⟩

/-- Claim C8: with a loaded handle, `get_document` fails with
`DocumentNotFoundError` exactly when the searcher returns no match for
the id; and when a document is found whose payload has a `contents`
field, it returns `{docid, text := contents}` with the state unchanged. -/
theorem get_document_found_iff (env : Env) (st : ControllerState)
    (docid index_name : String) (cfg : IndexConfig) (s : Searcher)
    (hc : st.indexes.lookup index_name = some cfg)
    (hs : cfg.searcher = some s) :
    ((get_document env st docid index_name).1 =
        .error (.documentNotFound docid index_name) ↔ s.doc docid = none)
    ∧ (∀ raw, s.doc docid = some raw → ∀ c, raw.lookup "contents" = some c →
        get_document env st docid index_name = (.ok ⟨docid, c⟩, st)) := by
  constructor
  · cases hdoc : s.doc docid with
    | none => simp [get_document, hc, hs, hdoc]
    | some raw =>
      cases hcont : raw.lookup "contents" <;>
        simp [get_document, hc, hs, hdoc, hcont]
  · intro raw hdoc c hcont
    simp [get_document, hc, hs, hdoc, hcont]

/-- Claim C10: `get_status` always succeeds with the state unchanged,
reports the `check_downloaded` boolean, and reports the compressed size
from the lexical catalog when the name has an entry there and the string
`"Not available"` for every other name (the vector catalog — `hnswInfo`
in the arbitrary `env` — is never consulted). -/
theorem get_status_spec (env : Env) (st : ControllerState) (index_name : String) :
    (get_status env st index_name).2 = st
    ∧ (get_status env st index_name).1 =
        .ok ⟨env.checkDownloaded index_name,
          match env.tfInfo index_name with
          | some n => .bytes n
          | none => .notAvailable⟩
    ∧ (∀ n, env.tfInfo index_name = some n →
        (get_status env st index_name).1 =
          .ok ⟨env.checkDownloaded index_name, .bytes n⟩)
    ∧ (env.tfInfo index_name = none →
        (get_status env st index_name).1 =
          .ok ⟨env.checkDownloaded index_name, .notAvailable⟩) := by
  refine ⟨rfl, rfl, ?_, ?_⟩
  · intro n h
    simp [get_status, h]
  · intro h
    simp [get_status, h]

/-! Concrete fixtures for the witnesses. -/

/-- Demonstration searcher: no hits; one stored document `d1` with
payload `{"contents": "hello world"}`. -/
def demoSearcher : Searcher :=
  ⟨fun _ _ => [],
   fun d => if d = "d1" then some [("contents", "hello world")] else none⟩

/-- Demonstration handle: loaded searcher, `ef_search` and
`query_generator` previously set. -/
def demoCfg : IndexConfig :=
  { name := "tf-a", ef_search := some 7, query_generator := some "qg",
    searcher := some demoSearcher }

/-- Demonstration handle with no settings ever applied. -/
def freshCfg : IndexConfig := { name := "fresh", searcher := some demoSearcher }

/-- Demonstration registry state. -/
def demoState : ControllerState := ⟨[("tf-a", demoCfg), ("fresh", freshCfg)]⟩

/-- Demonstration environment: `TF_INDEX_INFO` holds only `tf-a` (100
bytes); the vector catalog holds only `vector-only-index`; nothing is
downloaded; loaders return the demonstration searcher. -/
def demoEnv : Env :=
  { tfInfo := fun n => if n = "tf-a" then some 100 else none,
    hnswInfo := fun n => n = "vector-only-index",
    checkDownloaded := fun _ => false,
    loadLexical := fun _ => demoSearcher,
    loadHnsw := fun _ _ _ => demoSearcher }

/-- Witness for C3 at a concrete input. -/
theorem search_uses_cached_handle_witness :
    search demoEnv demoState "q" "tf-a" 10 "" none none none =
      (mkResults "" "q" (demoSearcher.search "q" 10), demoState) :=
  search_uses_cached_handle demoEnv demoState "q" "tf-a" 10 "" none none none
    demoCfg demoSearcher rfl rfl

/-- Witness for C4 at a concrete input. -/
theorem add_index_unsupported_witness :
    add_index demoEnv demoState ⟨"not-a-real-index", none, none, none, none, none⟩ =
      (.error (.unsupportedIndex "not-a-real-index"), demoState) :=
  add_index_unsupported demoEnv demoState
    ⟨"not-a-real-index", none, none, none, none, none⟩ (by decide) rfl

/-- Witness for C5 at a concrete input: updating only the encoder
preserves the previously set `ef_search` and `query_generator`. -/
theorem update_settings_partial_update_witness :
    ∃ cfg',
      update_settings demoState "tf-a" none (some "X") none =
        (.ok (), ⟨setIndex demoState.indexes "tf-a" cfg'⟩)
      ∧ cfg'.ef_search = some 7 ∧ cfg'.encoder = some "X"
      ∧ cfg'.query_generator = some "qg" := by
  obtain ⟨cfg', h1, _, hef, henc, hqg, _⟩ :=
    update_settings_partial_update demoState "tf-a" none (some "X") none demoCfg rfl
  exact ⟨cfg', h1, hef.trans rfl, henc.trans rfl, hqg.trans rfl⟩

/-- Witness for C6 at a concrete input: a handle with no settings ever
applied yields the empty mapping. -/
theorem get_settings_only_set_fields_witness :
    get_settings demoState "fresh" = (.ok [], demoState) := by
  obtain ⟨m, h1, _, _, _, _, _, _, _, hempty⟩ :=
    get_settings_only_set_fields demoState "fresh" freshCfg rfl
  rw [hempty rfl rfl rfl] at h1
  exact h1

/-- Witness for C7 at a concrete input. -/
theorem settings_ops_unknown_index_witness :
    update_settings demoState "missing" none none none =
      (.error (.unknownIndex "missing"), demoState)
    ∧ get_settings demoState "missing" =
      (.error (.unknownIndex "missing"), demoState) :=
  settings_ops_unknown_index demoState "missing" none none none rfl

/-- Witness for C8 at a concrete input: the stored payload
`{"contents": "hello world"}` round-trips, and a missing id yields
exactly the document-not-found error. -/
theorem get_document_found_iff_witness :
    ((get_document demoEnv demoState "d2" "tf-a").1 =
        .error (.documentNotFound "d2" "tf-a") ↔ demoSearcher.doc "d2" = none)
    ∧ get_document demoEnv demoState "d1" "tf-a" =
        (.ok ⟨"d1", "hello world"⟩, demoState) :=
  ⟨(get_document_found_iff demoEnv demoState "d2" "tf-a" demoCfg demoSearcher
      rfl rfl).1,
   (get_document_found_iff demoEnv demoState "d1" "tf-a" demoCfg demoSearcher
      rfl rfl).2 [("contents", "hello world")] rfl "hello world" rfl⟩

/-- Witness for C10 at concrete inputs: a lexical catalog name reports
its size, and a name only in the vector catalog reports
`"Not available"`. -/
theorem get_status_spec_witness :
    (get_status demoEnv demoState "tf-a").1 = .ok ⟨false, .bytes 100⟩
    ∧ (get_status demoEnv demoState "vector-only-index").1 =
        .ok ⟨false, .notAvailable⟩ :=
  ⟨(get_status_spec demoEnv demoState "tf-a").2.2.1 100 rfl,
   (get_status_spec demoEnv demoState "vector-only-index").2.2.2 rfl⟩

end PyseriniServer
